import Mathlib

/-!
Verification development for the Osint-admin subscription system.

The repository offers two interchangeable data-access backends behind one
contract:

* `Sqlite` models `src/database_sqlite.py` (`DatabaseManager` over a local
  SQLite file).
* `Cloud` models `src/database.py` on its Supabase path (the path taken when
  cloud credentials are present).
* `CloudFb` models the SQLite fallback inside `src/database.py`
  (`_add_user_sqlite` and friends), whose `INSERT OR REPLACE` differs from
  both of the above.
* `Hybrid` models the Telegram `grant_command` handler of
  `src/hybrid_admin.py`; `MainBot` models `OSINTAdminBot.grant_command` of
  `src/main.py`.

Modelling conventions: wall-clock instants are integers (seconds since the
epoch); ISO-formatted date strings stored in the database are represented by
the instant they denote (`Option Int`, `none` for SQL NULL); `timedelta
(days = d)` is `d * 86400` seconds; Python `timedelta.days` floors, hence
`Int.fdiv` by 86400; SQL REAL amounts are `Rat`; each operation takes the
current time `now` explicitly and threads the database state, returning the
pair of the Python return value and the post-state.
-/

namespace Sqlite

/-- Row of the `users` table created by `init_database` in
`src/database_sqlite.py`; column defaults mirror the DDL. -/
structure UserRow where
  user_id : Int
  username : Option String := none
  first_name : Option String := none
  last_name : Option String := none
  subscription_status : String := "inactive"
  subscription_start_date : Option Int := none
  subscription_end_date : Option Int := none
  payment_amount : Option Rat := none
  payment_reference : Option String := none
  queries_used : Nat := 0
  created_at : Int := 0
  updated_at : Int := 0
deriving DecidableEq

/-- Row of the `payment_logs` table (src/database_sqlite.py). -/
structure PaymentLog where
  user_id : Int
  amount : Rat
  reference : Option String
  admin_id : Option Int
  granted_days : Int
  created_at : Int
deriving DecidableEq

/-- Row of the `usage_logs` table (src/database_sqlite.py). -/
structure UsageLog where
  user_id : Int
  command_type : String
  query : String
  success : Bool
  created_at : Int
deriving DecidableEq

/-- The whole SQLite database state. -/
structure DB where
  users : List UserRow := []
  payment_logs : List PaymentLog := []
  usage_logs : List UsageLog := []
deriving DecidableEq

/-- `get_user`: `SELECT * FROM users WHERE user_id = ?`, first row or None. -/
def get_user (db : DB) (uid : Int) : Option UserRow :=
  db.users.find? (fun u => u.user_id == uid)

/-- `add_user`: returns True early when the id already exists, otherwise
inserts a fresh row with the DDL defaults (`created_at` and `updated_at`
are `CURRENT_TIMESTAMP`). -/
def add_user (uid : Int) (username first_name last_name : Option String)
    (now : Int) (db : DB) : Bool × DB :=
  match get_user db uid with
  | some _ => (true, db)
  | none =>
      (true, { db with users := db.users ++
        [{ user_id := uid, username := username, first_name := first_name,
           last_name := last_name, created_at := now, updated_at := now }] })

/-- `grant_subscription`: `UPDATE users SET subscription_status = active,
dates, payment columns WHERE user_id = ?` followed by an `INSERT INTO
payment_logs`; returns True. -/
def grant_subscription (uid days : Int) (amount : Rat)
    (admin_id : Option Int) (payment_ref : Option String)
    (now : Int) (db : DB) : Bool × DB :=
  let endDate := now + days * 86400
  let users' := db.users.map fun u =>
    if u.user_id == uid then
      { u with subscription_status := "active",
               subscription_start_date := some now,
               subscription_end_date := some endDate,
               payment_amount := some amount,
               payment_reference := payment_ref,
               updated_at := now }
    else u
  let rec0 : PaymentLog :=
    { user_id := uid, amount := amount, reference := payment_ref,
      admin_id := admin_id, granted_days := days, created_at := now }
  (true, { db with
           users := users',
           payment_logs := db.payment_logs ++ [rec0] })

/-- `expire_subscription`: `UPDATE users SET subscription_status = expired,
updated_at = CURRENT_TIMESTAMP WHERE user_id = ?`; returns True. -/
def expire_subscription (uid : Int) (now : Int) (db : DB) : Bool × DB :=
  (true, { db with users := db.users.map fun u =>
    if u.user_id == uid then
      { u with subscription_status := "expired", updated_at := now }
    else u })

/-- `is_user_subscribed`: looks the user up, requires stored status
"active" and a non-null end date, and on a lapsed end date calls
`expire_subscription` before returning False. -/
def is_user_subscribed (db : DB) (now uid : Int) : Bool × DB :=
  match get_user db uid with
  | none => (false, db)
  | some u =>
      if u.subscription_status == "active" then
        match u.subscription_end_date with
        | none => (false, db)
        | some e =>
            if now > e then (false, (expire_subscription uid now db).2)
            else (true, db)
      else (false, db)

/-- `log_usage`: one `INSERT INTO usage_logs` plus
`UPDATE users SET queries_used = queries_used + 1 WHERE user_id = ?`. -/
def log_usage (uid : Int) (command_type query : String) (success : Bool)
    (now : Int) (db : DB) : Bool × DB :=
  (true, { db with
    usage_logs := db.usage_logs ++
      [{ user_id := uid, command_type := command_type, query := query,
         success := success, created_at := now }],
    users := db.users.map fun u =>
      if u.user_id == uid then
        { u with queries_used := u.queries_used + 1, updated_at := now }
      else u })

/-- Result shape of `get_user_stats` (src/database_sqlite.py). -/
structure Stats where
  user_id : Int
  subscription_status : String
  queries_used : Nat
  subscription_start : Option Int
  subscription_end : Option Int
  payment_amount : Option Rat
  days_remaining : Int
deriving DecidableEq

/-- `get_user_stats`: empty result for a missing user; `days_remaining`
is `max 0 ((end - now).days)` with Python floor division. -/
def get_user_stats (db : DB) (now uid : Int) : Option Stats :=
  match get_user db uid with
  | none => none
  | some u =>
      let dr : Int :=
        match u.subscription_end_date with
        | some e => max 0 ((e - now).fdiv 86400)
        | none => 0
      some { user_id := u.user_id,
             subscription_status := u.subscription_status,
             queries_used := u.queries_used,
             subscription_start := u.subscription_start_date,
             subscription_end := u.subscription_end_date,
             payment_amount := u.payment_amount,
             days_remaining := dr }

/-- Boolean comparator realising `ORDER BY subscription_end_date DESC`
(SQLite sorts NULL below every value, so DESC puts NULL rows last). -/
def endDateDescB (u v : UserRow) : Bool :=
  match v.subscription_end_date, u.subscription_end_date with
  | none, _ => true
  | some _, none => false
  | some b, some a => decide (b ≤ a)

/-- The comparator as a relation, for the sortedness statements. -/
def endDateDesc (u v : UserRow) : Prop := endDateDescB u v = true

instance : DecidableRel endDateDesc := fun u v =>
  inferInstanceAs (Decidable (endDateDescB u v = true))

instance : IsTotal UserRow endDateDesc where
  total u v := by
    unfold endDateDesc endDateDescB
    cases hu : u.subscription_end_date <;> cases hv : v.subscription_end_date <;>
      simp
    omega

instance : IsTrans UserRow endDateDesc where
  trans u v w huv hvw := by
    unfold endDateDesc endDateDescB at *
    cases hu : u.subscription_end_date <;> cases hv : v.subscription_end_date <;>
      cases hw : w.subscription_end_date <;> simp_all
    omega

/-- `get_all_active_users`: `SELECT ... WHERE subscription_status = active
ORDER BY subscription_end_date DESC`; no end-date filter and no reference
to the current time. (The column projection of the SELECT is elided: the
model returns whole rows.) -/
def get_all_active_users (db : DB) : List UserRow :=
  List.insertionSort endDateDesc
    (db.users.filter fun u => u.subscription_status == "active")

end Sqlite

namespace Cloud

/-- Row of the Supabase `users` table as used by `src/database.py`
(`queries_used` is read with a `.get` default, so it is optional). -/
structure UserRow where
  user_id : Int
  username : Option String := none
  first_name : Option String := none
  last_name : Option String := none
  subscription_status : String := "inactive"
  subscription_start_date : Option Int := none
  subscription_end_date : Option Int := none
  queries_used : Option Nat := none
  created_at : Int := 0
  updated_at : Int := 0
deriving DecidableEq

/-- Row of the Supabase `payments` table as inserted by
`grant_subscription` in src/database.py. -/
structure Payment where
  user_id : Int
  amount : Rat
  currency : String
  payment_method : String
  transaction_id : String
  status : String
deriving DecidableEq

/-- Row of the Supabase `usage_logs` table as inserted by `log_usage`. -/
structure UsageLog where
  user_id : Int
  endpoint : String
  success : Bool
  timestamp : Int
deriving DecidableEq

/-- The Supabase database state. -/
structure DB where
  users : List UserRow := []
  payments : List Payment := []
  usage_logs : List UsageLog := []
deriving DecidableEq

/-- `get_user`: select by `user_id`, first row or None. -/
def get_user (db : DB) (uid : Int) : Option UserRow :=
  db.users.find? (fun u => u.user_id == uid)

/-- `add_user`: Supabase `upsert` of the profile fields plus `updated_at`;
an existing row keeps its subscription columns, a fresh row gets the table
defaults. -/
def add_user (uid : Int) (username first_name last_name : Option String)
    (now : Int) (db : DB) : Bool × DB :=
  match get_user db uid with
  | some _ =>
      (true, { db with users := db.users.map fun u =>
        if u.user_id == uid then
          { u with username := username, first_name := first_name,
                   last_name := last_name, updated_at := now }
        else u })
  | none =>
      (true, { db with users := db.users ++
        [{ user_id := uid, username := username, first_name := first_name,
           last_name := last_name, queries_used := some 0,
           created_at := now, updated_at := now }] })

/-- `is_user_active` (aliased as `is_user_subscribed`): pure read; a
missing or non-"active" row is inactive, a null end date is inactive, and
otherwise the row is active exactly when `now < end`. -/
def is_user_active (db : DB) (now uid : Int) : Bool :=
  match get_user db uid with
  | none => false
  | some u =>
      if u.subscription_status == "active" then
        match u.subscription_end_date with
        | some e => decide (now < e)
        | none => false
      else false

/-- `grant_subscription` (Supabase path): updates the user row (status,
dates, `updated_at` only) and inserts one `payments` row whose
`transaction_id` defaults to `admin_grant_{id}_{unix_time}`. The
`admin_id` argument is accepted but not stored on this path. -/
def grant_subscription (uid days : Int) (amount : Rat)
    (_admin_id : Option Int) (payment_ref : Option String)
    (now : Int) (db : DB) : Bool × DB :=
  let endDate := now + days * 86400
  let users' := db.users.map fun u =>
    if u.user_id == uid then
      { u with subscription_status := "active",
               subscription_start_date := some now,
               subscription_end_date := some endDate,
               updated_at := now }
    else u
  let tx : String :=
    match payment_ref with
    | some r => r
    | none => "admin_grant_" ++ toString uid ++ "_" ++ toString now
  let rec0 : Payment :=
    { user_id := uid, amount := amount, currency := "PKR",
      payment_method := "admin_grant", transaction_id := tx,
      status := "completed" }
  (true, { db with
           users := users',
           payments := db.payments ++ [rec0] })

/-- `expire_subscription`: updates status and `updated_at` only. -/
def expire_subscription (uid : Int) (now : Int) (db : DB) : Bool × DB :=
  (true, { db with users := db.users.map fun u =>
    if u.user_id == uid then
      { u with subscription_status := "expired", updated_at := now }
    else u })

/-- `log_usage`: inserts one `usage_logs` row; the user row (and its
`queries_used` column) is not touched on this backend. -/
def log_usage (uid : Int) (endpoint : String) (success : Bool)
    (now : Int) (db : DB) : Bool × DB :=
  (true, { db with usage_logs := db.usage_logs ++
    [{ user_id := uid, endpoint := endpoint, success := success,
       timestamp := now }] })

/-- Result shape of `get_user_stats` (src/database.py). -/
structure Stats where
  user_id : Int
  subscription_status : String
  subscription_start : Option Int
  subscription_end : Option Int
  queries_used : Nat
  days_remaining : Int
deriving DecidableEq

/-- `get_user_stats`: empty for a missing user, `days_remaining` as in the
SQLite backend. -/
def get_user_stats (db : DB) (now uid : Int) : Option Stats :=
  match get_user db uid with
  | none => none
  | some u =>
      let dr : Int :=
        match u.subscription_end_date with
        | some e => max 0 ((e - now).fdiv 86400)
        | none => 0
      some { user_id := u.user_id,
             subscription_status := u.subscription_status,
             subscription_start := u.subscription_start_date,
             subscription_end := u.subscription_end_date,
             queries_used := u.queries_used.getD 0,
             days_remaining := dr }

/-- Comparator realising the newest-first ordering of
`.order(created_at, desc=True)`. -/
def createdDesc (u v : UserRow) : Prop := v.created_at ≤ u.created_at

instance : DecidableRel createdDesc := fun u v =>
  inferInstanceAs (Decidable (v.created_at ≤ u.created_at))

instance : IsTotal UserRow createdDesc where
  total u v := le_total v.created_at u.created_at

instance : IsTrans UserRow createdDesc where
  trans _ _ _ huv hvw := le_trans hvw huv

/-- `get_all_active_users` (Supabase path): rows with stored status
"active" ordered newest `created_at` first, then filtered in Python to
those whose end date is null or still in the future. -/
def get_all_active_users (db : DB) (now : Int) : List UserRow :=
  let rows := (List.insertionSort createdDesc db.users).filter
    fun u => u.subscription_status == "active"
  rows.filter fun u =>
    match u.subscription_end_date with
    | some e => decide (now < e)
    | none => true

end Cloud

namespace CloudFb

/-- Row of the `users` table of the SQLite fallback inside
`src/database.py` (lines 45-57): no payment or usage-counter columns. -/
structure UserRow where
  user_id : Int
  username : Option String := none
  first_name : Option String := none
  last_name : Option String := none
  subscription_status : String := "inactive"
  subscription_start_date : Option Int := none
  subscription_end_date : Option Int := none
  created_at : Int := 0
  updated_at : Int := 0
deriving DecidableEq

/-- The fallback database state (`users` table only; the claims touch
nothing else on this path). -/
structure DB where
  users : List UserRow := []
deriving DecidableEq

/-- `_get_user_sqlite`: select by id, first row or None. -/
def get_user (db : DB) (uid : Int) : Option UserRow :=
  db.users.find? (fun u => u.user_id == uid)

/-- `_add_user_sqlite`: `INSERT OR REPLACE INTO users (user_id, username,
first_name, last_name, updated_at) VALUES (...)`. On a primary-key
conflict SQLite deletes the old row and inserts a fresh one, so every
column not listed reverts to its DDL default: status "inactive", null
dates, `created_at = CURRENT_TIMESTAMP`. -/
def add_user_sqlite (uid : Int)
    (username first_name last_name : Option String)
    (now : Int) (db : DB) : Bool × DB :=
  (true, { db with users :=
    db.users.filter (fun u => !(u.user_id == uid)) ++
      [{ user_id := uid, username := username, first_name := first_name,
         last_name := last_name, created_at := now, updated_at := now }] })

end CloudFb

namespace Hybrid

/-- Replies the `grant_command` handler of src/hybrid_admin.py can send. -/
inductive Reply
  | accessDenied
  | usage
  | invalidInput
  | notFound (uid : Int)
  | granted (uid days : Int)
  | grantFailed
deriving DecidableEq

/-- `grant_command` of src/hybrid_admin.py: admin check first, then usage
check, then integer parsing of the target id and day count (a Python
`ValueError` is the `none` branch of `String.toInt?`), then a `get_user`
existence check, and only then the store mutation.  `hybrid_admin`
imports the cloud `DatabaseManager`, hence `Cloud.DB`. -/
def grant_command (adminIds : List Int) (caller : Int) (args : List String)
    (now : Int) (db : Cloud.DB) : Reply × Cloud.DB :=
  if caller ∈ adminIds then
    match args with
    | [] => (Reply.usage, db)
    | a0 :: rest =>
        match a0.toInt? with
        | none => (Reply.invalidInput, db)
        | some target =>
            let daysParsed : Option Int :=
              match rest.head? with
              | some s => s.toInt?
              | none => some 21
            match daysParsed with
            | none => (Reply.invalidInput, db)
            | some days =>
                match Cloud.get_user db target with
                | none => (Reply.notFound target, db)
                | some _ =>
                    let r := Cloud.grant_subscription target days 399 none none now db
                    if r.1 then (Reply.granted target days, r.2)
                    else (Reply.grantFailed, r.2)
  else (Reply.accessDenied, db)

end Hybrid

namespace MainBot

/-- Profile data returned by the Telegram `get_chat` lookup. -/
structure ChatProfile where
  username : Option String
  first_name : Option String
  last_name : Option String
deriving DecidableEq

/-- Replies the `grant_command` handler of src/main.py can send (one call
of the handler can send several). -/
inductive Reply
  | accessDenied
  | usage
  | foundOnTelegram (uid : Int)
  | fetchFailed (uid : Int)
  | granted (uid : Int) (payment_ref : String)
  | grantFailed
  | invalidId
deriving DecidableEq

/-- `grant_command` of `OSINTAdminBot` (src/main.py).  `chat` stands for
the result of the `context.bot.get_chat` network call (`none` when that
call raises) and `defaultRef` for the `ADMIN_GRANT_{date}` string the
handler formats from the wall clock when no reference argument is given;
both are inputs of the environment, not of the store.  The admin check
comes first, before any store access. -/
def grant_command (adminIds : List Int) (caller : Int) (args : List String)
    (chat : Option ChatProfile) (defaultRef : String)
    (now : Int) (db : Cloud.DB) : List Reply × Cloud.DB :=
  if caller ∈ adminIds then
    match args with
    | [] => ([Reply.usage], db)
    | a0 :: rest =>
        match a0.toInt? with
        | none => ([Reply.invalidId], db)
        | some target =>
            let payment_ref := (rest.head?).getD defaultRef
            let step1 : List Reply × Cloud.DB :=
              match Cloud.get_user db target with
              | some _ => ([], db)
              | none =>
                  let prof : ChatProfile :=
                    match chat with
                    | some p =>
                        { p with first_name := some (p.first_name.getD ("Unknown User")) }
                    | none =>
                        { username := none, first_name := some ("Unknown User"),
                          last_name := none }
                  let pre0 : List Reply :=
                    match chat with
                    | some _ => [Reply.foundOnTelegram target]
                    | none => [Reply.fetchFailed target]
                  (pre0,
                    (Cloud.add_user target prof.username prof.first_name
                      prof.last_name now db).2)
            let r := Cloud.grant_subscription target 21 399 (some caller)
              (some payment_ref) now step1.2
            if r.1 then (step1.1 ++ [Reply.granted target payment_ref], r.2)
            else (step1.1 ++ [Reply.grantFailed], r.2)
  else ([Reply.accessDenied], db)

end MainBot

/-- Condition under which the database_sqlite subscription check finds a
stored-"active" row whose end date lies strictly in the past — the only
situation in which that check writes to the store. -/
def Sqlite.lapsed (db : Sqlite.DB) (now uid : Int) : Bool :=
  match Sqlite.get_user db uid with
  | some u =>
      u.subscription_status == "active" &&
        (match u.subscription_end_date with
         | some e => decide (e < now)
         | none => false)
  | none => false

section Helpers

variable {α : Type}

/-- `find?` of a keyed predicate commutes with a map that preserves the
key. -/
theorem find_map_of_key (key : α → Int) (uid : Int) (g : α → α)
    (hg : ∀ u, key (g u) = key u) :
    ∀ l : List α,
      (l.map g).find? (fun u => key u == uid) =
        (l.find? (fun u => key u == uid)).map g := by
  intro l
  induction l with
  | nil => rfl
  | cons a l ih =>
      by_cases h : (key a == uid) = true
      · simp [List.find?_cons, hg, h]
      · simp only [List.map_cons, List.find?_cons, hg, h]
        simpa using ih

/-- A keyed conditional update is the identity on a list that has no
matching key. -/
theorem map_ite_id_of_find_none (key : α → Int) (uid : Int) (g : α → α) :
    ∀ l : List α, l.find? (fun u => key u == uid) = none →
      (l.map fun u => if key u == uid then g u else u) = l := by
  intro l
  induction l with
  | nil => intro _; rfl
  | cons a l ih =>
      intro h
      rw [List.find?_cons] at h
      cases ha : (key a == uid) with
      | true => simp only [ha] at h; exact absurd h (by simp)
      | false =>
          simp only [ha] at h
          simp only [List.map_cons]
          rw [if_neg (by simp [ha]), ih h]

end Helpers

/-- C1 (counterexample): a user row with stored status "active" and a null
end timestamp is reported NOT subscribed by both backends, although the
claim says an absent end timestamp is treated as no expiry; additionally
the database_sqlite backend reports subscribed when the end timestamp
equals the current time, i.e. when it is not strictly after now. -/
theorem c1_counterexample :
    (Sqlite.is_user_subscribed
      { users := [{ user_id := 1, subscription_status := "active" }] } 0 1).1 = false
    ∧ Cloud.is_user_active
      { users := [{ user_id := 1, subscription_status := "active" }] } 0 1 = false
    ∧ (Sqlite.is_user_subscribed
      { users := [{ user_id := 1, subscription_status := "active",
                    subscription_end_date := some 5 }] } 5 1).1 = true := by
  decide

/-- C1 (amended): `isSubscribed(id)` is true iff a user row exists for
`id`, its stored status equals "active", and its end timestamp is
PRESENT and has not passed — strictly after the current time in
database.py, and not strictly before it in database_sqlite.py; a user
with status "active" and no end timestamp is reported NOT subscribed by
both backends. -/
theorem c1_amended (cdb : Cloud.DB) (db : Sqlite.DB) (now now2 uid uid2 : Int) :
    (Cloud.is_user_active cdb now uid = true ↔
      ∃ u, Cloud.get_user cdb uid = some u ∧ u.subscription_status = "active" ∧
        ∃ e, u.subscription_end_date = some e ∧ now < e)
    ∧ ((Sqlite.is_user_subscribed db now2 uid2).1 = true ↔
      ∃ u, Sqlite.get_user db uid2 = some u ∧ u.subscription_status = "active" ∧
        ∃ e, u.subscription_end_date = some e ∧ now2 ≤ e) := by
  constructor
  · unfold Cloud.is_user_active
    cases h : Cloud.get_user cdb uid with
    | none => simp
    | some u =>
        cases he : u.subscription_end_date <;>
          by_cases hs : u.subscription_status = "active" <;>
            simp [he, hs]
  · unfold Sqlite.is_user_subscribed
    cases h : Sqlite.get_user db uid2 with
    | none => simp
    | some u =>
        cases he : u.subscription_end_date with
        | none =>
            by_cases hs : u.subscription_status = "active" <;> simp [he, hs]
        | some e =>
            by_cases hs : u.subscription_status = "active" <;>
              by_cases hc : e < now2 <;>
                simp [he, hs, hc, gt_iff_lt]
            omega

/-- C2 (counterexample): take `now = 100`.  The database_sqlite
`get_all_active_users` returns the row whose end date 0 lapsed long before
`now` (its stored status still reads "active"), and it orders by end date
descending, so the newest-created row (created_at 30) comes last rather
than first — refuting both the filtering and the ordering of the claim. -/
theorem c2_counterexample :
    Sqlite.get_all_active_users
      { users := [{ user_id := 1, subscription_status := "active",
                    subscription_end_date := some 0, created_at := 30 },
                  { user_id := 2, subscription_status := "active",
                    subscription_end_date := some 1000, created_at := 20 }] }
      = [{ user_id := 2, subscription_status := "active",
           subscription_end_date := some 1000, created_at := 20 },
         { user_id := 1, subscription_status := "active",
           subscription_end_date := some 0, created_at := 30 }] := by
  decide

/-- C2 (amended): the database.py (Supabase) listing contains exactly the
users whose stored status is "active" and whose end timestamp is absent or
later than the current time, ordered newest created_at first; the
database_sqlite.py listing instead contains exactly the users whose stored
status is "active" — including users whose computed expiry has passed —
and is ordered by end date descending (nulls last), not by created_at. -/
theorem c2_amended (cdb : Cloud.DB) (db : Sqlite.DB) (now : Int) :
    (∀ u, u ∈ Cloud.get_all_active_users cdb now ↔
      (u ∈ cdb.users ∧ u.subscription_status = "active" ∧
        (u.subscription_end_date = none ∨
          ∃ e, u.subscription_end_date = some e ∧ now < e)))
    ∧ List.Sorted Cloud.createdDesc (Cloud.get_all_active_users cdb now)
    ∧ (∀ u, u ∈ Sqlite.get_all_active_users db ↔
        (u ∈ db.users ∧ u.subscription_status = "active"))
    ∧ List.Sorted Sqlite.endDateDesc (Sqlite.get_all_active_users db) := by
  refine ⟨?_, ?_, ?_, ?_⟩
  · intro u
    unfold Cloud.get_all_active_users
    simp only [List.mem_filter,
      (List.perm_insertionSort Cloud.createdDesc cdb.users).mem_iff]
    cases he : u.subscription_end_date with
    | none => simp [he, and_assoc]
    | some e => simp [he, and_assoc]
  · exact List.Pairwise.filter _
      (List.Pairwise.filter _ (List.sorted_insertionSort Cloud.createdDesc cdb.users))
  · intro u
    unfold Sqlite.get_all_active_users
    simp [(List.perm_insertionSort Sqlite.endDateDesc
      (db.users.filter fun u => u.subscription_status == "active")).mem_iff,
      List.mem_filter]
  · exact List.sorted_insertionSort Sqlite.endDateDesc _

/-- C3 (counterexample): re-adding an existing id behaves as claimed on
neither cited code path.  In database_sqlite.py the second add_user call
is a no-op: the username stays "old", so profile fields and updated_at
are NOT updated.  In the database.py SQLite fallback the INSERT OR REPLACE
resets the subscription columns: a row with stored status "active" and
end date 2000 comes out with status "inactive" and null dates. -/
theorem c3_counterexample :
    (Sqlite.add_user 1 (some ("new")) none none 99
        { users := [{ user_id := 1, username := some ("old"),
                      subscription_status := "active" }] }).2
      = { users := [{ user_id := 1, username := some ("old"),
                      subscription_status := "active" }] }
    ∧ ((CloudFb.add_user_sqlite 1 (some ("new")) none none 99
        { users := [{ user_id := 1, username := some ("old"),
                      subscription_status := "active",
                      subscription_start_date := some 10,
                      subscription_end_date := some 2000 }] }).2).users
      = [{ user_id := 1, username := some ("new"), first_name := none,
           last_name := none, subscription_status := "inactive",
           subscription_start_date := none, subscription_end_date := none,
           created_at := 99, updated_at := 99 }] := by
  decide

/-- C3 (amended): re-adding an existing id leaves exactly one row for the
id on both cited paths, but neither path matches the claim in full:
database_sqlite add_user is a pure no-op that still returns true (profile
fields, updated_at and subscription state all unchanged), while the
database.py SQLite fallback replaces the whole row — profile fields and
updated_at are set, but the subscription columns are reset to their DDL
defaults (status "inactive", null start and end dates) and created_at is
re-stamped. -/
theorem c3_amended (db : Sqlite.DB) (fdb : CloudFb.DB) (uid : Int)
    (un fn ln : Option String) (now : Int) (u : Sqlite.UserRow)
    (w : CloudFb.UserRow)
    (hu : Sqlite.get_user db uid = some u)
    (_hw : CloudFb.get_user fdb uid = some w) :
    Sqlite.add_user uid un fn ln now db = (true, db)
    ∧ (CloudFb.add_user_sqlite uid un fn ln now fdb).1 = true
    ∧ CloudFb.get_user (CloudFb.add_user_sqlite uid un fn ln now fdb).2 uid
        = some { user_id := uid, username := un, first_name := fn,
                 last_name := ln, subscription_status := "inactive",
                 subscription_start_date := none, subscription_end_date := none,
                 created_at := now, updated_at := now }
    ∧ ((CloudFb.add_user_sqlite uid un fn ln now fdb).2.users.filter
        (fun r => r.user_id == uid)).length = 1 := by
  have hnone : (fdb.users.filter fun r => !(r.user_id == uid)).find?
      (fun r => r.user_id == uid) = none := by
    rw [List.find?_eq_none]
    intro x hx
    have hx2 := (List.mem_filter.mp hx).2
    simp only [Bool.not_eq_true'] at hx2
    simp [hx2]
  have hnil : (fdb.users.filter fun r => !(r.user_id == uid)).filter
      (fun r => r.user_id == uid) = [] := by
    rw [List.filter_eq_nil_iff]
    intro x hx
    have hx2 := (List.mem_filter.mp hx).2
    simp only [Bool.not_eq_true'] at hx2
    simp [hx2]
  refine ⟨?_, rfl, ?_, ?_⟩
  · unfold Sqlite.add_user
    rw [hu]
  · unfold CloudFb.get_user CloudFb.add_user_sqlite
    rw [List.find?_append, hnone]
    simp
  · unfold CloudFb.add_user_sqlite
    simp [List.filter_append, hnil]

/-- C3 (witness): the no-op half of the amended statement, instantiated at
user id 5 with both hypotheses discharged by evaluation. -/
theorem c3_witness :
    Sqlite.add_user 5 none none none 7
        { users := [{ user_id := 5, subscription_status := "active" }] }
      = (true, { users := [{ user_id := 5, subscription_status := "active" }] }) :=
  (c3_amended { users := [{ user_id := 5, subscription_status := "active" }] }
    { users := [{ user_id := 5 }] } 5 none none none 7
    { user_id := 5, subscription_status := "active" } { user_id := 5 }
    (by decide) (by decide)).1

/-- C4 (counterexample): checking a user whose stored status is "active"
but whose end date 0 lies before `now = 100` MUTATES the store: the
stored status column is flipped to "expired" by the check itself,
contradicting the read-only claim. -/
theorem c4_counterexample :
    (Sqlite.is_user_subscribed
        { users := [{ user_id := 1, subscription_status := "active",
                      subscription_end_date := some 0 }] } 100 1).2
      ≠ { users := [{ user_id := 1, subscription_status := "active",
                      subscription_end_date := some 0 }] }
    ∧ ((Sqlite.is_user_subscribed
        { users := [{ user_id := 1, subscription_status := "active",
                      subscription_end_date := some 0 }] } 100 1).2.users.map
        fun u => u.subscription_status) = ["expired"] := by
  decide

/-- C4 (amended): the database.py check is a pure function of the state
(modelled with no state output), but the database_sqlite check is
read-only except in exactly one situation: when it finds a stored
"active" row whose end date lies strictly before the current time it
flips that stored status to "expired" via expire_subscription; in every
other situation it returns the stored state unchanged. -/
theorem c4_amended (db : Sqlite.DB) (now uid : Int) :
    (Sqlite.is_user_subscribed db now uid).2 =
      (if Sqlite.lapsed db now uid then (Sqlite.expire_subscription uid now db).2
       else db) := by
  unfold Sqlite.is_user_subscribed Sqlite.lapsed
  cases h : Sqlite.get_user db uid with
  | none => simp
  | some u =>
      cases hs : (u.subscription_status == "active") with
      | false => simp [hs]
      | true =>
          cases he : u.subscription_end_date with
          | none => simp [hs, he]
          | some e =>
              by_cases hc : e < now <;> simp [hs, he, hc, gt_iff_lt]

/-- C5 (counterexample): on the database.py backend, log_usage appends the
usage row and reports success, but the user row — and with it the
queries_used counter, here stored as 5 — is left untouched, refuting the
"increments the usage counter" half of the claim for that backend. -/
theorem c5_counterexample :
    (Cloud.log_usage 1 ("num_lookup") true 50
        { users := [{ user_id := 1, queries_used := some 5 }] }).1 = true
    ∧ (Cloud.log_usage 1 ("num_lookup") true 50
        { users := [{ user_id := 1, queries_used := some 5 }] }).2.usage_logs
      = [{ user_id := 1, endpoint := "num_lookup", success := true,
           timestamp := 50 }]
    ∧ (Cloud.log_usage 1 ("num_lookup") true 50
        { users := [{ user_id := 1, queries_used := some 5 }] }).2.users
      = [{ user_id := 1, queries_used := some 5 }] := by
  decide

/-- C5 (amended): a successful logUsage appends exactly one usage row on
both backends; the by-one increment of the existing user's queries_used
counter happens only on the database_sqlite backend, while database.py
leaves every user row unchanged. -/
theorem c5_amended (db : Sqlite.DB) (cdb : Cloud.DB) (uid uid2 : Int)
    (ct q ep : String) (s s2 : Bool) (now now2 : Int) (u : Sqlite.UserRow)
    (hu : Sqlite.get_user db uid = some u) :
    (Sqlite.log_usage uid ct q s now db).1 = true
    ∧ (Sqlite.log_usage uid ct q s now db).2.usage_logs
        = db.usage_logs ++
          [{ user_id := uid, command_type := ct, query := q, success := s,
             created_at := now }]
    ∧ Sqlite.get_user (Sqlite.log_usage uid ct q s now db).2 uid
        = some { u with queries_used := u.queries_used + 1, updated_at := now }
    ∧ (Cloud.log_usage uid2 ep s2 now2 cdb).1 = true
    ∧ (Cloud.log_usage uid2 ep s2 now2 cdb).2.usage_logs
        = cdb.usage_logs ++
          [{ user_id := uid2, endpoint := ep, success := s2,
             timestamp := now2 }]
    ∧ (Cloud.log_usage uid2 ep s2 now2 cdb).2.users = cdb.users := by
  refine ⟨rfl, rfl, ?_, rfl, rfl, rfl⟩
  have hmap := find_map_of_key (fun r : Sqlite.UserRow => r.user_id) uid
    (fun r => if r.user_id == uid then
        { r with queries_used := r.queries_used + 1, updated_at := now }
      else r)
    (by intro r; by_cases h : (r.user_id == uid) = true <;> simp [h]) db.users
  have key : (Sqlite.log_usage uid ct q s now db).2.users = db.users.map
      (fun r => if r.user_id == uid then
          { r with queries_used := r.queries_used + 1, updated_at := now }
        else r) := rfl
  unfold Sqlite.get_user at hu ⊢
  have hid : (u.user_id == uid) = true :=
    List.find?_some (p := fun r : Sqlite.UserRow => r.user_id == uid) hu
  have hid2 : u.user_id = uid := by simpa using hid
  rw [key, hmap, hu]
  simp [hid2]

/-- C5 (witness): the amended statement applied to a one-user database at
id 3, extracting the incremented-counter conclusion. -/
theorem c5_witness :
    Sqlite.get_user
        (Sqlite.log_usage 3 ("phone") ("q1") true 40
          { users := [{ user_id := 3 }] }).2 3
      = some { user_id := 3, queries_used := 1, updated_at := 40 } :=
  (c5_amended { users := [{ user_id := 3 }] } { users := [] } 3 3
    ("phone") ("q1") ("ep") true true 40 40 { user_id := 3 }
    (by decide)).2.2.1

/-- Looking up a user after grant_subscription returns the row with the
subscription columns rewritten, provided the user existed (shared helper). -/
theorem sqlite_get_user_after_grant (db : Sqlite.DB) (uid d : Int)
    (amount : Rat) (admin : Option Int) (ref : Option String) (t : Int)
    (u : Sqlite.UserRow) (hu : Sqlite.get_user db uid = some u) :
    Sqlite.get_user (Sqlite.grant_subscription uid d amount admin ref t db).2 uid
      = some { u with
          subscription_status := "active",
          subscription_start_date := some t,
          subscription_end_date := some (t + d * 86400),
          payment_amount := some amount,
          payment_reference := ref,
          updated_at := t } := by
  have hmap := find_map_of_key (fun r : Sqlite.UserRow => r.user_id) uid
    (fun r => if r.user_id == uid then
        { r with subscription_status := "active",
                 subscription_start_date := some t,
                 subscription_end_date := some (t + d * 86400),
                 payment_amount := some amount,
                 payment_reference := ref,
                 updated_at := t }
      else r)
    (by intro r; by_cases h : (r.user_id == uid) = true <;> simp [h]) db.users
  have key : (Sqlite.grant_subscription uid d amount admin ref t db).2.users
      = db.users.map
        (fun r => if r.user_id == uid then
            { r with subscription_status := "active",
                     subscription_start_date := some t,
                     subscription_end_date := some (t + d * 86400),
                     payment_amount := some amount,
                     payment_reference := ref,
                     updated_at := t }
          else r) := rfl
  unfold Sqlite.get_user at hu ⊢
  have hid : (u.user_id == uid) = true :=
    List.find?_some (p := fun r : Sqlite.UserRow => r.user_id == uid) hu
  have hid2 : u.user_id = uid := by simpa using hid
  rw [key, hmap, hu]
  simp [hid2]

/-- Looking up a user after the database.py (Supabase) grant_subscription
returns the row with status, start, end and updated_at rewritten, provided
the user existed (shared helper). -/
theorem cloud_get_user_after_grant (db : Cloud.DB) (uid d : Int)
    (amount : Rat) (admin : Option Int) (ref : Option String) (t : Int)
    (u : Cloud.UserRow) (hu : Cloud.get_user db uid = some u) :
    Cloud.get_user (Cloud.grant_subscription uid d amount admin ref t db).2 uid
      = some { u with
          subscription_status := "active",
          subscription_start_date := some t,
          subscription_end_date := some (t + d * 86400),
          updated_at := t } := by
  have hmap := find_map_of_key (fun r : Cloud.UserRow => r.user_id) uid
    (fun r => if r.user_id == uid then
        { r with subscription_status := "active",
                 subscription_start_date := some t,
                 subscription_end_date := some (t + d * 86400),
                 updated_at := t }
      else r)
    (by intro r; by_cases h : (r.user_id == uid) = true <;> simp [h]) db.users
  have key : (Cloud.grant_subscription uid d amount admin ref t db).2.users
      = db.users.map
        (fun r => if r.user_id == uid then
            { r with subscription_status := "active",
                     subscription_start_date := some t,
                     subscription_end_date := some (t + d * 86400),
                     updated_at := t }
          else r) := rfl
  unfold Cloud.get_user at hu ⊢
  have hid2 : u.user_id = uid := by
    simpa using
      List.find?_some (p := fun r : Cloud.UserRow => r.user_id == uid) hu
  rw [key, hmap, hu]
  simp [hid2]

/-- C6: immediately after a successful grant of d ≥ 1 days at time t to an
existing user — checked at any instant t2 of the same first day, which in
particular covers the sub-second boundary tick the claim allows — both
cited backends report the user subscribed, and get_user_stats on each
shows days_remaining equal to d (same instant) or d - 1 (after the tick),
stored status "active", start t and end t + d days. -/
theorem c6_grant_gives_subscription (db : Sqlite.DB) (cdb : Cloud.DB)
    (uid uid2 d : Int)
    (amount : Rat) (admin : Option Int) (ref : Option String) (t t2 : Int)
    (u : Sqlite.UserRow) (u2 : Cloud.UserRow)
    (hu : Sqlite.get_user db uid = some u)
    (hu2 : Cloud.get_user cdb uid2 = some u2)
    (hd : 1 ≤ d) (h1 : t ≤ t2) (h2 : t2 < t + 86400) :
    (Sqlite.grant_subscription uid d amount admin ref t db).1 = true
    ∧ (Sqlite.is_user_subscribed
        (Sqlite.grant_subscription uid d amount admin ref t db).2 t2 uid).1 = true
    ∧ (∃ st, Sqlite.get_user_stats
          (Sqlite.grant_subscription uid d amount admin ref t db).2 t2 uid
        = some st
      ∧ (st.days_remaining = d ∨ st.days_remaining = d - 1)
      ∧ st.subscription_status = "active"
      ∧ st.subscription_start = some t
      ∧ st.subscription_end = some (t + d * 86400))
    ∧ (Cloud.grant_subscription uid2 d amount admin ref t cdb).1 = true
    ∧ Cloud.is_user_active
        (Cloud.grant_subscription uid2 d amount admin ref t cdb).2 t2 uid2 = true
    ∧ ∃ st2, Cloud.get_user_stats
          (Cloud.grant_subscription uid2 d amount admin ref t cdb).2 t2 uid2
        = some st2
      ∧ (st2.days_remaining = d ∨ st2.days_remaining = d - 1)
      ∧ st2.subscription_status = "active"
      ∧ st2.subscription_start = some t
      ∧ st2.subscription_end = some (t + d * 86400) := by
  have hg := sqlite_get_user_after_grant db uid d amount admin ref t u hu
  have hg2 := cloud_get_user_after_grant cdb uid2 d amount admin ref t u2 hu2
  refine ⟨rfl, ?_, ?_, rfl, ?_, ?_⟩
  · unfold Sqlite.is_user_subscribed
    rw [hg]
    have hlt : ¬ (t + d * 86400 < t2) := by omega
    simp [gt_iff_lt, hlt]
  · unfold Sqlite.get_user_stats
    rw [hg]
    refine ⟨_, rfl, ?_, rfl, rfl, rfl⟩
    show max 0 ((t + d * 86400 - t2).fdiv 86400) = d
      ∨ max 0 ((t + d * 86400 - t2).fdiv 86400) = d - 1
    rw [Int.fdiv_eq_ediv _ (by omega)]
    omega
  · unfold Cloud.is_user_active
    rw [hg2]
    have hlt2 : t2 < t + d * 86400 := by omega
    simp [hlt2]
  · unfold Cloud.get_user_stats
    rw [hg2]
    refine ⟨_, rfl, ?_, rfl, rfl, rfl⟩
    show max 0 ((t + d * 86400 - t2).fdiv 86400) = d
      ∨ max 0 ((t + d * 86400 - t2).fdiv 86400) = d - 1
    rw [Int.fdiv_eq_ediv _ (by omega)]
    omega

/-- C6 (witness): granting 21 days to existing user 9 at time 0 on each
backend and checking at time 0. -/
theorem c6_witness :
    (Sqlite.is_user_subscribed
        (Sqlite.grant_subscription 9 21 399 none none 0
          { users := [{ user_id := 9 }] }).2 0 9).1 = true
    ∧ Cloud.is_user_active
        (Cloud.grant_subscription 9 21 399 none none 0
          { users := [{ user_id := 9 }] }).2 0 9 = true :=
  ⟨(c6_grant_gives_subscription { users := [{ user_id := 9 }] }
      { users := [{ user_id := 9 }] } 9 9 21 399 none none 0 0
      { user_id := 9 } { user_id := 9 } (by decide) (by decide) (by decide)
      (by decide) (by decide)).2.1,
   (c6_grant_gives_subscription { users := [{ user_id := 9 }] }
      { users := [{ user_id := 9 }] } 9 9 21 399 none none 0 0
      { user_id := 9 } { user_id := 9 } (by decide) (by decide) (by decide)
      (by decide) (by decide)).2.2.2.2.1⟩

/-- C7 (counterexample): when no reference is given, the database_sqlite
grant stores a NULL reference in its grant record instead of the
deterministic admin_grant default, refuting the never-null half of the
claim (the record itself, with the given amount, is written). -/
theorem c7_counterexample :
    ((Sqlite.grant_subscription 1 21 399 none none 50
        { users := [] }).2.payment_logs.map fun r => r.reference) = [none]
    ∧ ((Sqlite.grant_subscription 1 21 399 none none 50
        { users := [] }).2.payment_logs.map fun r => r.amount) = [399] := by
  decide

/-- C7 (amended): every grant call writes exactly one grant record
carrying the given amount; the deterministic admin_grant_{id}_{unix_time}
default for a missing reference exists only in database.py, whose record
field is never null, while database_sqlite.py stores the reference
exactly as given — null when none is given. -/
theorem c7_amended (db : Sqlite.DB) (cdb : Cloud.DB) (uid uid2 d d2 : Int)
    (amount amount2 : Rat) (admin admin2 : Option Int)
    (ref ref2 : Option String) (t t2 : Int) :
    (∃ rec1,
      (Cloud.grant_subscription uid2 d2 amount2 admin2 ref2 t2 cdb).2.payments
        = cdb.payments ++ [rec1]
      ∧ rec1.user_id = uid2
      ∧ rec1.amount = amount2
      ∧ rec1.transaction_id =
          (match ref2 with
           | some r => r
           | none => "admin_grant_" ++ toString uid2 ++ "_" ++ toString t2))
    ∧ (∃ rec2,
      (Sqlite.grant_subscription uid d amount admin ref t db).2.payment_logs
        = db.payment_logs ++ [rec2]
      ∧ rec2.user_id = uid
      ∧ rec2.amount = amount
      ∧ rec2.reference = ref
      ∧ rec2.granted_days = d) :=
  ⟨⟨_, rfl, rfl, rfl, rfl⟩, ⟨_, rfl, rfl, rfl, rfl, rfl⟩⟩

/-- C8: a caller who is not on the admin allow-list gets the uniform
access-denied reply from the grant entry points of both src/main.py and
src/hybrid_admin.py, and the store state comes back unchanged — zero
store mutations, the membership check coming before any store call. -/
theorem c8_nonadmin_denied (adminIds : List Int) (caller : Int)
    (args args2 : List String) (chat : Option MainBot.ChatProfile)
    (defaultRef : String) (now now2 : Int) (db db2 : Cloud.DB)
    (h : caller ∉ adminIds) :
    Hybrid.grant_command adminIds caller args now db
        = (Hybrid.Reply.accessDenied, db)
    ∧ MainBot.grant_command adminIds caller args2 chat defaultRef now2 db2
        = ([MainBot.Reply.accessDenied], db2) := by
  constructor
  · unfold Hybrid.grant_command
    rw [if_neg h]
  · unfold MainBot.grant_command
    rw [if_neg h]

/-- C8 (witness): caller 999 against the allow-list [1, 1844138085]. -/
theorem c8_witness :
    Hybrid.grant_command [1, 1844138085] 999 [] 0 { users := [] }
      = (Hybrid.Reply.accessDenied, { users := [] }) :=
  (c8_nonadmin_denied [1, 1844138085] 999 [] [] none ("r") 0 0
    { users := [] } { users := [] } (by decide)).1

/-- C9: expireSubscription always reports success, rewrites only the
status (to "expired") and updated_at of the target row — the start and
end timestamps stay as the historical record — and any subsequent
subscription check returns false on both backends, whatever the prior
state was. -/
theorem c9_expire_then_unsubscribed (db : Sqlite.DB) (cdb : Cloud.DB)
    (uid uid2 now now2 t t2 : Int) :
    (Sqlite.expire_subscription uid now db).1 = true
    ∧ Sqlite.get_user (Sqlite.expire_subscription uid now db).2 uid
        = (Sqlite.get_user db uid).map
            (fun u =>
              { u with subscription_status := "expired", updated_at := now })
    ∧ (Sqlite.is_user_subscribed
        (Sqlite.expire_subscription uid now db).2 t uid).1 = false
    ∧ (Cloud.expire_subscription uid2 now2 cdb).1 = true
    ∧ Cloud.get_user (Cloud.expire_subscription uid2 now2 cdb).2 uid2
        = (Cloud.get_user cdb uid2).map
            (fun u =>
              { u with subscription_status := "expired", updated_at := now2 })
    ∧ Cloud.is_user_active
        (Cloud.expire_subscription uid2 now2 cdb).2 t2 uid2 = false := by
  have hgS : Sqlite.get_user (Sqlite.expire_subscription uid now db).2 uid
      = (Sqlite.get_user db uid).map
          (fun u =>
            { u with subscription_status := "expired", updated_at := now }) := by
    have hmap := find_map_of_key (fun r : Sqlite.UserRow => r.user_id) uid
      (fun r => if r.user_id == uid then
          { r with subscription_status := "expired", updated_at := now }
        else r)
      (by intro r; by_cases h : (r.user_id == uid) = true <;> simp [h])
      db.users
    have key : (Sqlite.expire_subscription uid now db).2.users = db.users.map
        (fun r => if r.user_id == uid then
            { r with subscription_status := "expired", updated_at := now }
          else r) := rfl
    unfold Sqlite.get_user
    rw [key, hmap]
    cases hu : db.users.find? (fun r => r.user_id == uid) with
    | none => rfl
    | some u =>
        have hid2 : u.user_id = uid := by
          simpa using
            List.find?_some (p := fun r : Sqlite.UserRow => r.user_id == uid) hu
        simp [hid2]
  have hgC : Cloud.get_user (Cloud.expire_subscription uid2 now2 cdb).2 uid2
      = (Cloud.get_user cdb uid2).map
          (fun u =>
            { u with subscription_status := "expired", updated_at := now2 }) := by
    have hmap := find_map_of_key (fun r : Cloud.UserRow => r.user_id) uid2
      (fun r => if r.user_id == uid2 then
          { r with subscription_status := "expired", updated_at := now2 }
        else r)
      (by intro r; by_cases h : (r.user_id == uid2) = true <;> simp [h])
      cdb.users
    have key : (Cloud.expire_subscription uid2 now2 cdb).2.users = cdb.users.map
        (fun r => if r.user_id == uid2 then
            { r with subscription_status := "expired", updated_at := now2 }
          else r) := rfl
    unfold Cloud.get_user
    rw [key, hmap]
    cases hu : cdb.users.find? (fun r => r.user_id == uid2) with
    | none => rfl
    | some u =>
        have hid2 : u.user_id = uid2 := by
          simpa using
            List.find?_some (p := fun r : Cloud.UserRow => r.user_id == uid2) hu
        simp [hid2]
  refine ⟨rfl, hgS, ?_, rfl, hgC, ?_⟩
  · unfold Sqlite.is_user_subscribed
    rw [hgS]
    cases hu : Sqlite.get_user db uid with
    | none => rfl
    | some u => rfl
  · unfold Cloud.is_user_active
    rw [hgC]
    cases hu : Cloud.get_user cdb uid2 with
    | none => rfl
    | some u => rfl

/-- C10: granting to an id that has no user row still returns true on
both backends; the users UPDATE matches zero rows (the user list comes
back unchanged, so no subscription is created), the only store change is
the one appended grant record, and the id remains not subscribed. -/
theorem c10_grant_without_user (db : Sqlite.DB) (cdb : Cloud.DB)
    (uid uid2 d d2 : Int) (amount amount2 : Rat) (admin admin2 : Option Int)
    (ref ref2 : Option String) (t t2 t3 t4 : Int)
    (h : Sqlite.get_user db uid = none)
    (h2 : Cloud.get_user cdb uid2 = none) :
    (Sqlite.grant_subscription uid d amount admin ref t db).1 = true
    ∧ (Sqlite.grant_subscription uid d amount admin ref t db).2.users = db.users
    ∧ (Sqlite.grant_subscription uid d amount admin ref t db).2.usage_logs
        = db.usage_logs
    ∧ (Sqlite.grant_subscription uid d amount admin ref t db).2.payment_logs
        = db.payment_logs ++
          [{ user_id := uid, amount := amount, reference := ref,
             admin_id := admin, granted_days := d, created_at := t }]
    ∧ (Sqlite.is_user_subscribed
        (Sqlite.grant_subscription uid d amount admin ref t db).2 t3 uid).1
        = false
    ∧ (Cloud.grant_subscription uid2 d2 amount2 admin2 ref2 t2 cdb).1 = true
    ∧ (Cloud.grant_subscription uid2 d2 amount2 admin2 ref2 t2 cdb).2.users
        = cdb.users
    ∧ Cloud.is_user_active
        (Cloud.grant_subscription uid2 d2 amount2 admin2 ref2 t2 cdb).2 t4 uid2
        = false := by
  have h' : db.users.find? (fun r => r.user_id == uid) = none := h
  have h2' : cdb.users.find? (fun r => r.user_id == uid2) = none := h2
  have husersS : (Sqlite.grant_subscription uid d amount admin ref t db).2.users
      = db.users := by
    show db.users.map _ = db.users
    exact map_ite_id_of_find_none (fun r : Sqlite.UserRow => r.user_id) uid _
      db.users h'
  have husersC : (Cloud.grant_subscription uid2 d2 amount2 admin2 ref2 t2 cdb).2.users
      = cdb.users := by
    show cdb.users.map _ = cdb.users
    exact map_ite_id_of_find_none (fun r : Cloud.UserRow => r.user_id) uid2 _
      cdb.users h2'
  have hgoneS : Sqlite.get_user
      (Sqlite.grant_subscription uid d amount admin ref t db).2 uid = none := by
    unfold Sqlite.get_user
    rw [husersS]
    exact h'
  have hgoneC : Cloud.get_user
      (Cloud.grant_subscription uid2 d2 amount2 admin2 ref2 t2 cdb).2 uid2
      = none := by
    unfold Cloud.get_user
    rw [husersC]
    exact h2'
  refine ⟨rfl, husersS, rfl, rfl, ?_, rfl, husersC, ?_⟩
  · unfold Sqlite.is_user_subscribed
    rw [hgoneS]
  · unfold Cloud.is_user_active
    rw [hgoneC]

/-- C10 (witness): granting to id 8 on an empty database. -/
theorem c10_witness :
    (Sqlite.grant_subscription 8 21 399 none none 0 { users := [] }).1 = true
    ∧ (Sqlite.grant_subscription 8 21 399 none none 0 { users := [] }).2.users
        = ([] : List Sqlite.UserRow) :=
  ⟨(c10_grant_without_user { users := [] } { users := [] } 8 8 21 21 399 399
      none none none none 0 0 0 0 (by decide) (by decide)).1,
   (c10_grant_without_user { users := [] } { users := [] } 8 8 21 21 399 399
      none none none none 0 0 0 0 (by decide) (by decide)).2.1⟩
